import Mathlib

/-!
Shallow embedding of the Stocknews serverless handler (api/stockanews.js;
the repository holds three revisions of it: the current one with the
8-second abort/timeout and `transformNewsData`, an earlier plain proxy, and
the `transformSvelteKitData` revision) together with its schema normalizers.

Modelling conventions:
* JavaScript values reachable from a parsed JSON payload are modelled by
  `JsVal` (arrays and objects are mutually inductive so that all functions
  are structurally recursive, hence executable and kernel-reducible).
  Numbers are modelled as integers: the payloads the claims are about are
  JSON documents whose numeric fields are integer epoch seconds, and every
  concrete input used below lies in that fragment.
* Property access `x.f` / `x?.f` is total in the modelled code paths (it is
  always guarded by a truthiness check or by optional chaining), so
  `jsGetField` returns `vUndefined` on non-objects.
* Code that can throw is modelled with `Except String`, the `String` being
  the V8 exception message; a `catch` block is a `match` on the result.
* `Date.now()` and `new Date()` are modelled by an explicit `now : Nat`
  parameter (milliseconds since the Unix epoch), and
  `Math.random().toString(36).slice(2)` by an explicit `rand : String`.
* `Date.prototype.toISOString` is `isoOfMillis`, computed on the proleptic
  Gregorian calendar (the civil-from-days algorithm); a `Date` is valid iff
  its millisecond value has absolute value at most 8.64e15, and calling
  `toISOString` on an invalid date throws a RangeError whose message is
  the string held in `msgInvalidTime`.
-/

mutual

inductive JsVal where
  | vNull
  | vUndefined
  | vBool (b : Bool)
  | vNum (n : Int)
  | vStr (s : String)
  | vArr (xs : JsArr)
  | vObj (fs : JsObj)
deriving Repr

inductive JsArr where
  | nil
  | cons (hd : JsVal) (tl : JsArr)
deriving Repr

inductive JsObj where
  | nil
  | cons (key : String) (val : JsVal) (tl : JsObj)
deriving Repr

end

def JsArr.toList : JsArr → List JsVal
  | JsArr.nil => []
  | JsArr.cons x tl => x :: tl.toList

def jsArrOfList : List JsVal → JsArr
  | [] => JsArr.nil
  | x :: xs => JsArr.cons x (jsArrOfList xs)

def jsObjOfList : List (String × JsVal) → JsObj
  | [] => JsObj.nil
  | (k, v) :: xs => JsObj.cons k v (jsObjOfList xs)

/-- Array literal builder. -/
def jarr (xs : List JsVal) : JsVal := JsVal.vArr (jsArrOfList xs)

/-- Object literal builder. -/
def jobj (fs : List (String × JsVal)) : JsVal := JsVal.vObj (jsObjOfList fs)

/-- JavaScript truthiness (`if (x)`, `x && y`, `x ? a : b`, `!!x`). -/
def truthy : JsVal → Bool
  | JsVal.vNull => false
  | JsVal.vUndefined => false
  | JsVal.vBool b => b
  | JsVal.vNum n => n != 0
  | JsVal.vStr s => s != ("")
  | JsVal.vArr _ => true
  | JsVal.vObj _ => true

/-- `a || b`: the left operand when truthy, otherwise the right one. -/
def jsOr (a b : JsVal) : JsVal := if truthy a then a else b

/-- Field lookup in an object (JSON objects have unique keys). -/
def objGet : JsObj → String → JsVal
  | JsObj.nil, _ => JsVal.vUndefined
  | JsObj.cons k v rest, key => if k = key then v else objGet rest key

/-- Property access `x.f` (and `x?.f`): `undefined` on everything that is not
an object carrying the field.  In the embedded code every non-optional access
is guarded by a truthiness check, so the null/undefined cases are unreachable
there and the total model agrees with JavaScript. -/
def jsGetField : JsVal → String → JsVal
  | JsVal.vObj fs, key => objGet fs key
  | _, _ => JsVal.vUndefined

/-- Indexing `x?.[i]`. -/
def jsIndex : JsVal → Nat → JsVal
  | JsVal.vArr xs, i => xs.toList.getD i JsVal.vUndefined
  | JsVal.vObj fs, i => objGet fs (toString i)
  | JsVal.vStr s, i =>
      match s.data[i]? with
      | some c => JsVal.vStr (String.singleton c)
      | none => JsVal.vUndefined
  | _, _ => JsVal.vUndefined

/-- `x?.length`, as used by the structural-failure diagnostics. -/
def jsLength : JsVal → Option Nat
  | JsVal.vArr xs => some xs.toList.length
  | JsVal.vStr s => some s.length
  | _ => none

mutual

/-- JavaScript `ToString`, as applied by string concatenation, template
literals, and `ToNumber` on arrays. -/
def jsToString : JsVal → String
  | JsVal.vNull => ("null")
  | JsVal.vUndefined => ("undefined")
  | JsVal.vBool b => cond b ("true") ("false")
  | JsVal.vNum n => toString n
  | JsVal.vStr s => s
  | JsVal.vObj _ => ("[object Object]")
  | JsVal.vArr xs => jsJoin xs

/-- `Array.prototype.toString` (a comma join). -/
def jsJoin : JsArr → String
  | JsArr.nil => ("")
  | JsArr.cons x JsArr.nil => jsElemStr x
  | JsArr.cons x tl => jsElemStr x ++ (",") ++ jsJoin tl

/-- Element conversion inside an array join: `null` and `undefined` print as
the empty string there. -/
def jsElemStr : JsVal → String
  | JsVal.vNull => ("")
  | JsVal.vUndefined => ("")
  | JsVal.vBool b => cond b ("true") ("false")
  | JsVal.vNum n => toString n
  | JsVal.vStr s => s
  | JsVal.vObj _ => ("[object Object]")
  | JsVal.vArr xs => jsJoin xs

end

/-- The white-space characters stripped by `String.prototype.trim` and by
`ToNumber` (space, tab, LF, CR, VT, FF, NBSP, BOM). -/
def isJsSpace (c : Char) : Bool :=
  c = ' ' || c = '\t' || c = '\n' || c = '\r' ||
    c.toNat = 11 || c.toNat = 12 || c.toNat = 160 || c.toNat = 65279

/-- `s.trim()`. -/
def jsTrim (s : String) : String :=
  String.mk (((s.data.dropWhile isJsSpace).reverse.dropWhile isJsSpace).reverse)

def splitOnCharAux (sep : Char) : List Char → List Char → List String
  | [], acc => [String.mk acc.reverse]
  | c :: rest, acc =>
      if c = sep then String.mk acc.reverse :: splitOnCharAux sep rest []
      else splitOnCharAux sep rest (c :: acc)

/-- `s.split(sep)` for a one-character separator (`"".split` gives `[""]`,
and a trailing separator yields a trailing empty piece, as in JavaScript). -/
def jsSplitChar (sep : Char) (s : String) : List String :=
  splitOnCharAux sep s.data []

def charsLeadWith : List Char → List Char → Bool
  | [], _ => true
  | _ :: _, [] => false
  | p :: ps, c :: cs => p = c && charsLeadWith ps cs

def charListContains (pat : List Char) : List Char → Bool
  | [] => charsLeadWith pat []
  | c :: cs => charsLeadWith pat (c :: cs) || charListContains pat cs

/-- The value of a non-empty run of decimal digits (`none` otherwise). -/
def decDigitsValAux : List Char → Nat → Option Nat
  | [], acc => some acc
  | c :: cs, acc =>
      if c.isDigit then decDigitsValAux cs (acc * 10 + (c.toNat - 48))
      else none

def decDigitsVal : List Char → Option Nat
  | [] => none
  | l => decDigitsValAux l 0

/-- `Number(s)` on the decimal-integer fragment: surrounding white space is
ignored, the empty string is `0`, an optionally signed run of digits is its
value, and everything else is NaN (`none`).  (Fractional, exponent and
hexadecimal literals are outside the modelled fragment.) -/
def parseJsNumber (s : String) : Option Int :=
  match (jsTrim s).data with
  | [] => some 0
  | c :: rest =>
      if c = '-' then (decDigitsVal rest).map (fun m => -(m : Int))
      else if c = '+' then (decDigitsVal rest).map (fun m => (m : Int))
      else (decDigitsVal (c :: rest)).map (fun m => (m : Int))

/-- JavaScript `ToNumber`, as applied by `item.d * 1000`; `none` is NaN. -/
def jsToNumber : JsVal → Option Int
  | JsVal.vNull => some 0
  | JsVal.vUndefined => none
  | JsVal.vBool b => some (cond b 1 0)
  | JsVal.vNum n => some n
  | JsVal.vStr s => parseJsNumber s
  | JsVal.vArr xs => parseJsNumber (jsJoin xs)
  | JsVal.vObj _ => none

/-- Largest valid millisecond value of a JavaScript `Date` (8.64e15). -/
def maxMs : Int := 8640000000000000

/-- Civil date (year, month, day) of a day count relative to 1970-01-01 on
the proleptic Gregorian calendar. -/
def civilFromDays (z0 : Int) : Int × Nat × Nat :=
  let z := z0 + 719468
  let era := z.ediv 146097
  let doe := (z - era * 146097).toNat
  let yoe := (doe - doe / 1460 + doe / 36524 - doe / 146096) / 365
  let doy := doe - (365 * yoe + yoe / 4 - yoe / 100)
  let mp := (5 * doy + 2) / 153
  let d := doy - (153 * mp + 2) / 5 + 1
  let m := if mp < 10 then mp + 3 else mp - 9
  (if m ≤ 2 then (yoe : Int) + era * 400 + 1 else (yoe : Int) + era * 400, m, d)

/-- Zero-pad the decimal form of `n` to width `w`. -/
def padZero (w : Nat) (n : Nat) : String :=
  let s := toString n
  String.mk (List.replicate (w - s.length) '0') ++ s

/-- Year component of an ISO-8601 string: four digits for 0..9999, otherwise
a sign followed by six digits (the expanded-year format of `toISOString`). -/
def isoYear (y : Int) : String :=
  if 0 ≤ y ∧ y ≤ 9999 then padZero 4 y.toNat
  else if y < 0 then ("-") ++ padZero 6 (-y).toNat
  else ("+") ++ padZero 6 y.toNat

/-- `new Date(ms).toISOString()` for a valid millisecond value `ms`. -/
def isoOfMillis (ms : Int) : String :=
  let day := ms.ediv 86400000
  let msod := (ms.emod 86400000).toNat
  let c := civilFromDays day
  isoYear c.1 ++ ("-") ++ padZero 2 c.2.1 ++ ("-") ++ padZero 2 c.2.2 ++
    ("T") ++ padZero 2 (msod / 3600000) ++ (":") ++
    padZero 2 (msod % 3600000 / 60000) ++ (":") ++
    padZero 2 (msod % 60000 / 1000) ++ (".") ++ padZero 3 (msod % 1000) ++ ("Z")

/-! ## The current normalizer: `transformNewsData` (api/stockanews.js, main revision)

```js
function transformNewsData(data) {
  try {
    const articlesNode = data?.nodes?.[1]?.data;
    if (!Array.isArray(articlesNode)) {
      return { error: 'Unexpected data structure',
               hasNodes: !!data?.nodes, nodeCount: data?.nodes?.length };
    }
    const articles = articlesNode
      .filter(item => item && item.t && item.u)
      .map(item => ({
        id: item.u.split('/').pop() || Date.now().toString(),
        title: item.t.trim(),
        summary: (item.s || '').trim(),
        url: `https://stockanalysis.com${item.u}`,
        publishedAt: item.d ? new Date(item.d * 1000).toISOString() : null,
        source: 'StockAnalysis'
      }));
    return { success: true, count: articles.length,
             lastUpdated: new Date().toISOString(), articles };
  } catch (err) { return { error: err.message }; }
}
```
-/

/-- The upstream site origin prefixed to relative paths. -/
def origin : String := ("https://stockanalysis.com")

/-- The constant `source` field. -/
def srcName : String := ("StockAnalysis")

/-- V8 message of the RangeError thrown by `toISOString` on an invalid date. -/
def msgInvalidTime : String := ("Invalid time value")

/-- V8 message of the TypeError thrown by `item.u.split` when `u` is a truthy
non-string. -/
def msgSplitU : String := ("item.u.split is not a function")

/-- V8 message of the TypeError thrown by `item.t.trim` when `t` is a truthy
non-string. -/
def msgTrimT : String := ("item.t.trim is not a function")

/-- V8 message of the TypeError thrown by `(item.s || '').trim` when `s` is a
truthy non-string. -/
def msgTrimS : String := ("item.s.trim is not a function")

/-- `u.split('/').pop()`: the trailing segment of the path (`split` always
returns a non-empty array, so `pop` is total). -/
def lastSeg (u : String) : String := (jsSplitChar '/' u).getLastD ("")

/-- Output record of `transformNewsData`. -/
structure Article where
  id : String
  title : String
  summary : String
  url : String
  publishedAt : Option String
  source : String
deriving Repr, DecidableEq

/-- The filter predicate `item => item && item.t && item.u`. -/
def keepItem (item : JsVal) : Bool :=
  truthy item && truthy (jsGetField item ("t")) && truthy (jsGetField item ("u"))

/-- `(item.s || '').trim()` before trimming: throws when `s` is truthy but
not a string, otherwise yields the string (the empty one when `s` is falsy). -/
def summaryField (sv : JsVal) : Except String String :=
  if truthy sv then
    match sv with
    | JsVal.vStr s => Except.ok s
    | _ => Except.error msgTrimS
  else Except.ok ("")

/-- `item.d ? new Date(item.d * 1000).toISOString() : null`.  An invalid or
out-of-range millisecond value makes `toISOString` throw. -/
def publishedField (dv : JsVal) : Except String (Option String) :=
  if truthy dv then
    match jsToNumber dv with
    | some n =>
        if -maxMs ≤ n * 1000 ∧ n * 1000 ≤ maxMs then
          Except.ok (some (isoOfMillis (n * 1000)))
        else Except.error msgInvalidTime
    | none => Except.error msgInvalidTime
  else Except.ok none

/-- The mapping of one kept raw entry; the object-literal fields evaluate in
source order (id, title, summary, url, publishedAt, source), so the first
throwing field aborts. -/
def mapItem (now : Nat) (item : JsVal) : Except String Article :=
  match jsGetField item ("u") with
  | JsVal.vStr u =>
      match jsGetField item ("t") with
      | JsVal.vStr t =>
          match summaryField (jsGetField item ("s")) with
          | Except.ok s =>
              match publishedField (jsGetField item ("d")) with
              | Except.ok pa =>
                  Except.ok
                    { id := if lastSeg u = ("") then toString now else lastSeg u
                      title := jsTrim t
                      summary := jsTrim s
                      url := origin ++ u
                      publishedAt := pa
                      source := srcName }
              | Except.error e => Except.error e
          | Except.error e => Except.error e
      | _ => Except.error msgTrimT
  | _ => Except.error msgSplitU

/-- `Array.prototype.map` over `Except`: the first thrown exception aborts
the whole batch. -/
def mapArticles (now : Nat) : List JsVal → Except String (List Article)
  | [] => Except.ok []
  | x :: xs =>
      match mapItem now x with
      | Except.error e => Except.error e
      | Except.ok a =>
          match mapArticles now xs with
          | Except.error e => Except.error e
          | Except.ok rest => Except.ok (a :: rest)

/-- The fragile probe `data?.nodes?.[1]?.data`. -/
def pathLookup (data : JsVal) : JsVal :=
  jsGetField (jsIndex (jsGetField data ("nodes")) 1) ("data")

/-- Result of `transformNewsData`: the structural-failure object (with its
diagnostic fields; its `error` field is the constant string forming
`Unexpected data structure`), the caught-exception object `{ error:
err.message }`, or the success envelope. -/
inductive TransformResult where
  | structFail (hasNodes : Bool) (nodeCount : Option Nat)
  | exnFail (msg : String)
  | success (count : Nat) (lastUpdated : String) (articles : List Article)
deriving Repr, DecidableEq

/-- Truthiness of `cleaned.error` as tested by the handler. -/
def hasError : TransformResult → Bool
  | TransformResult.structFail _ _ => true
  | TransformResult.exnFail m => m != ("")
  | TransformResult.success _ _ _ => false

def transformNewsData (now : Nat) (data : JsVal) : TransformResult :=
  match pathLookup data with
  | JsVal.vArr raws =>
      match mapArticles now (raws.toList.filter keepItem) with
      | Except.ok arts => TransformResult.success arts.length (isoOfMillis now) arts
      | Except.error m => TransformResult.exnFail m
  | _ =>
      TransformResult.structFail (truthy (jsGetField data ("nodes")))
        (jsLength (jsGetField data ("nodes")))

/-- A payload carrying the given raw entries at the probed path
`nodes[1].data`. -/
def mkPayload (raws : List JsVal) : JsVal :=
  jobj [(("nodes"), jarr [JsVal.vNull, jobj [(("data"), jarr raws)]])]

/-- The raw entries at the probed path (empty when the path is not an
array). -/
def rawItems (data : JsVal) : List JsVal :=
  match pathLookup data with
  | JsVal.vArr xs => xs.toList
  | _ => []

/-- Forget the `lastUpdated` timestamp of a success envelope. -/
def stripTime : TransformResult → TransformResult
  | TransformResult.success cnt _ arts => TransformResult.success cnt ("") arts
  | r => r

/-- The titles of the emitted articles (empty list on failure). -/
def titlesOf : TransformResult → List String
  | TransformResult.success _ _ arts => arts.map Article.title
  | _ => []

/-- A raw entry whose URL-path field is a string with a non-empty trailing
segment: exactly the entries for which the `id` never falls back to
`Date.now().toString()`. -/
def segOK (item : JsVal) : Bool :=
  match jsGetField item ("u") with
  | JsVal.vStr u => lastSeg u != ("")
  | _ => false

/-! ## The request handler (api/stockanews.js, main revision)

The handler sets CORS/cache headers, answers OPTIONS with 200 and non-GET
with 405, and for GET performs one upstream fetch guarded by an
`AbortController` whose `abort` fires after 8000 ms.  The outcome of that
bounded fetch is the handler's only external input besides the request
method, and is modelled by `FetchOutcome`:

* `timeout` — the 8-second deadline fired, `controller.abort()` aborted the
  outstanding outbound call, and `fetch` rejected with an `AbortError`;
* `netError` — `fetch` (or body reading) rejected with some other error;
* `httpResponse status contentType parsed` — a response arrived; `parsed` is
  the JSON value of its body, or `none` when the body is not valid JSON
  (in which case `response.json()` throws a SyntaxError). -/

/-- The millisecond budget passed to `setTimeout` before `controller.abort()`. -/
def timeoutMs : Nat := 8000

inductive FetchOutcome where
  | timeout
  | netError (name : String) (msg : String)
  | httpResponse (status : Nat) (contentType : String) (parsed : Option JsVal)

/-- The JSON bodies the handler can answer with. -/
inductive ResponseBody where
  | empty
  | errOnly (error : String)
  | errHint (error : String) (hint : String)
  | errDebug (error : String) (debug : Option String)
  | payload (t : TransformResult)
deriving Repr, DecidableEq

structure HttpResponse where
  status : Nat
  body : ResponseBody
deriving Repr, DecidableEq

/-- `response.ok`: status in the 2xx range. -/
def respOk (status : Nat) : Bool := 200 ≤ status && status ≤ 299

/-- `s.includes(pat)`. -/
def strContains (s pat : String) : Bool := charListContains pat.data s.data

/-- Is the value `null` or `undefined` (the arguments on which `Object.keys`
throws a TypeError)? -/
def nullish : JsVal → Bool
  | JsVal.vNull => true
  | JsVal.vUndefined => true
  | _ => false

/-- `Array.isArray`. -/
def jsIsArray : JsVal → Bool
  | JsVal.vArr _ => true
  | _ => false

/-- V8 message of the TypeError thrown by `Object.keys(null)`. -/
def msgKeysNull : String := ("Cannot convert undefined or null to object")

/-- Stand-in message for the SyntaxError of `response.json()` on a non-JSON
body (no claim depends on its exact text). -/
def msgBadJson : String := ("Unexpected end of JSON input")

/-- The try/catch body of the handler for a GET request: the 8-second
bounded fetch, the blocked-response check, the JSON parse, the defensive
transformation, and the catch clause distinguishing `AbortError` (504) from
everything else (500).  `devMode` is
`process.env.NODE_ENV === 'development'`; failure logging goes to the
console only and is not part of the response, so it is not modelled. -/
def handleGet (devMode : Bool) (outcome : FetchOutcome) (now : Nat) :
    HttpResponse :=
  match outcome with
  | FetchOutcome.timeout =>
      ⟨504, ResponseBody.errOnly ("Upstream timeout")⟩
  | FetchOutcome.netError name msg =>
      if name = ("AbortError") then
        ⟨504, ResponseBody.errOnly ("Upstream timeout")⟩
      else
        ⟨500, ResponseBody.errDebug ("Service unavailable")
          (if devMode then some msg else none)⟩
  | FetchOutcome.httpResponse status ct parsed =>
      if !respOk status || !strContains ct ("application/json") then
        ⟨502, ResponseBody.errHint ("Source blocked request")
          ("Check Vercel logs for Cloudflare/challenge details")⟩
      else
        match parsed with
        | none =>
            ⟨500, ResponseBody.errDebug ("Service unavailable")
              (if devMode then some msgBadJson else none)⟩
        | some rawData =>
            let cleaned := transformNewsData now rawData
            if hasError cleaned then
              if nullish rawData then
                ⟨500, ResponseBody.errDebug ("Service unavailable")
                  (if devMode then some msgKeysNull else none)⟩
              else
                ⟨500, ResponseBody.errHint ("Data structure changed")
                  ("Check transformation logic")⟩
            else ⟨200, ResponseBody.payload cleaned⟩

/-- The handler of the main revision: method dispatch around `handleGet`. -/
def handler (method : String) (devMode : Bool) (outcome : FetchOutcome)
    (now : Nat) : HttpResponse :=
  if method = ("OPTIONS") then ⟨200, ResponseBody.empty⟩
  else if method ≠ ("GET") then ⟨405, ResponseBody.errOnly ("Only GET allowed")⟩
  else handleGet devMode outcome now

/-- The `error` field of a response body (the structural-failure payload
carries the constant forming `Unexpected data structure` as its own). -/
def bodyErrorField : ResponseBody → Option String
  | ResponseBody.errOnly e => some e
  | ResponseBody.errHint e _ => some e
  | ResponseBody.errDebug e _ => some e
  | ResponseBody.payload (TransformResult.structFail _ _) =>
      some ("Unexpected data structure")
  | ResponseBody.payload (TransformResult.exnFail m) => some m
  | _ => none

/-- The `hint` field of a response body. -/
def bodyHintField : ResponseBody → Option String
  | ResponseBody.errHint _ h => some h
  | _ => none

/-- Whether the body carries an `articles` field. -/
def bodyHasArticles : ResponseBody → Bool
  | ResponseBody.payload (TransformResult.success _ _ _) => true
  | _ => false

/-- The emitted `articles` sequence of a response (`none` when absent). -/
def respArticles (r : HttpResponse) : Option (List Article) :=
  match r.body with
  | ResponseBody.payload (TransformResult.success _ _ arts) => some arts
  | _ => none

/-! ## The earlier normalizer: `transformSvelteKitData` (stockanews.js revision)

```js
function transformSvelteKitData(data) {
  try {
    const newsNode = data?.nodes?.[1]?.data;
    if (!Array.isArray(newsNode)) {
      return { raw_nodes: data.nodes?.map(n => n?.type || 'unknown') };
    }
    return {
      lastUpdated: new Date().toISOString(),
      articles: newsNode.map(item => ({
        id: item?.id || item?.url?.split('/').pop() || Math.random().toString(36).slice(2),
        title: item?.title || '',
        summary: item?.summary || item?.description || '',
        url: item?.url ? `https://stockanalysis.com${item.url}` : '',
        source: 'StockAnalysis',
        publishedAt: item?.date || item?.time || null,
        imageUrl: item?.image ? `https://stockanalysis.com${item.image}` : null
      })).filter(article => article.title && article.url)
    };
  } catch (e) { return { error: 'Data parsing failed', raw_sample: ... }; }
}
```
-/

/-- Output record of `transformSvelteKitData`; the raw fields copied without
type checks stay `JsVal`. -/
structure ArticleS where
  id : JsVal
  title : JsVal
  summary : JsVal
  url : String
  source : String
  publishedAt : JsVal
  imageUrl : Option String
deriving Repr

/-- `item?.id || item?.url?.split('/').pop() || Math.random().toString(36)
.slice(2)` — throws when `id` is falsy and `url` is a non-nullish
non-string. -/
def idFieldS (rand : String) (idv urlv : JsVal) : Except String JsVal :=
  if truthy idv then Except.ok idv
  else
    match urlv with
    | JsVal.vNull => Except.ok (JsVal.vStr rand)
    | JsVal.vUndefined => Except.ok (JsVal.vStr rand)
    | JsVal.vStr u =>
        Except.ok (JsVal.vStr (if lastSeg u = ("") then rand else lastSeg u))
    | _ => Except.error ("item.url.split is not a function")

/-- The mapping of one raw entry in the SvelteKit revision (it maps every
entry and filters afterwards). -/
def mapItemS (rand : String) (item : JsVal) : Except String ArticleS :=
  match idFieldS rand (jsGetField item ("id")) (jsGetField item ("url")) with
  | Except.error e => Except.error e
  | Except.ok idv =>
      Except.ok
        { id := idv
          title := jsOr (jsGetField item ("title")) (JsVal.vStr (""))
          summary := jsOr (jsGetField item ("summary"))
            (jsOr (jsGetField item ("description")) (JsVal.vStr ("")))
          url := if truthy (jsGetField item ("url")) then
              origin ++ jsToString (jsGetField item ("url"))
            else ("")
          source := srcName
          publishedAt := jsOr (jsGetField item ("date"))
            (jsOr (jsGetField item ("time")) JsVal.vNull)
          imageUrl := if truthy (jsGetField item ("image")) then
              some (origin ++ jsToString (jsGetField item ("image")))
            else none }

def mapArticlesS (rand : String) : List JsVal → Except String (List ArticleS)
  | [] => Except.ok []
  | x :: xs =>
      match mapItemS rand x with
      | Except.error e => Except.error e
      | Except.ok a =>
          match mapArticlesS rand xs with
          | Except.error e => Except.error e
          | Except.ok rest => Except.ok (a :: rest)

/-- The post-map filter `article => article.title && article.url`. -/
def keepArtS (a : ArticleS) : Bool := truthy a.title && a.url != ("")

/-- Result of `transformSvelteKitData`: the raw-nodes fallback object, the
caught-exception object (its `error` field is the constant forming
`Data parsing failed`; the `raw_sample` diagnostic — a 200-character prefix
of `JSON.stringify(data)` — is abstracted as the unserialized value, which
no claim inspects), or the success envelope. -/
inductive TransformS where
  | rawNodes (types : Option (List JsVal))
  | parseFail (rawSample : JsVal)
  | success (lastUpdated : String) (articles : List ArticleS)
deriving Repr

/-- The non-array branch `{ raw_nodes: data.nodes?.map(n => n?.type ||
'unknown') }`: accessing `data.nodes` throws a TypeError when `data` is
nullish, calling `.map` throws when `nodes` is defined but not an array,
and a nullish `nodes` short-circuits to an undefined `raw_nodes`. -/
def svelteFallback (data : JsVal) : TransformS :=
  match data with
  | JsVal.vNull => TransformS.parseFail data
  | JsVal.vUndefined => TransformS.parseFail data
  | _ =>
      match jsGetField data ("nodes") with
      | JsVal.vArr ns =>
          TransformS.rawNodes (some (ns.toList.map
            (fun n => jsOr (jsGetField n ("type")) (JsVal.vStr ("unknown")))))
      | JsVal.vNull => TransformS.rawNodes none
      | JsVal.vUndefined => TransformS.rawNodes none
      | _ => TransformS.parseFail data

def transformSvelteKitData (now : Nat) (rand : String) (data : JsVal) :
    TransformS :=
  match pathLookup data with
  | JsVal.vArr raws =>
      match mapArticlesS rand raws.toList with
      | Except.ok arts =>
          TransformS.success (isoOfMillis now) (arts.filter keepArtS)
      | Except.error _ => TransformS.parseFail data
  | _ => svelteFallback data

/-! ## Serialized field lists (what `res.json` emits per article) -/

/-- The JSON object `res.json` serializes for one `Article` of the main
revision, in the field order of its object literal. -/
def articleToJson (a : Article) : List (String × JsVal) :=
  [(("id"), JsVal.vStr a.id), (("title"), JsVal.vStr a.title),
   (("summary"), JsVal.vStr a.summary), (("url"), JsVal.vStr a.url),
   (("publishedAt"),
     match a.publishedAt with
     | some s => JsVal.vStr s
     | none => JsVal.vNull),
   (("source"), JsVal.vStr a.source)]

/-- The JSON object serialized for one `ArticleS` of the SvelteKit revision,
in the field order of its object literal. -/
def articleSToJson (a : ArticleS) : List (String × JsVal) :=
  [(("id"), a.id), (("title"), a.title), (("summary"), a.summary),
   (("url"), JsVal.vStr a.url), (("source"), JsVal.vStr a.source),
   (("publishedAt"), a.publishedAt),
   (("imageUrl"),
     match a.imageUrl with
     | some s => JsVal.vStr s
     | none => JsVal.vNull)]

/-! ## Concrete inputs used by the claim theorems and witnesses -/

/-- The raw entry of the spec's worked example. -/
def entry7 : JsVal :=
  jobj [(("t"), JsVal.vStr ("Title")), (("u"), JsVal.vStr ("/news/abc-123")),
    (("d"), JsVal.vNum 1700000000), (("s"), JsVal.vStr ("Summary"))]

def payload7 : JsVal := mkPayload [entry7]

/-- The article the spec's worked example must produce. -/
def article7 : Article :=
  { id := ("abc-123"), title := ("Title"), summary := ("Summary")
    url := ("https://stockanalysis.com/news/abc-123")
    publishedAt := some ("2023-11-14T22:13:20.000Z"), source := srcName }

/-- An entry whose title is whitespace only: truthy, but empty after trim. -/
def entryBlankTitle : JsVal :=
  jobj [(("t"), JsVal.vStr (" ")), (("u"), JsVal.vStr ("/news/x"))]

/-- A well-formed entry. -/
def entryGoodA : JsVal :=
  jobj [(("t"), JsVal.vStr ("A")), (("u"), JsVal.vStr ("/news/a"))]

/-- An entry whose URL field is a (truthy) number: `item.u.split` throws. -/
def entryBadNumU : JsVal :=
  jobj [(("t"), JsVal.vStr ("B")), (("u"), JsVal.vNum 5)]

/-- A kept entry whose epoch-seconds field overflows the valid `Date`
range (`1e15` seconds is `1e18` milliseconds, far above 8.64e15). -/
def entryHugeD : JsVal :=
  jobj [(("t"), JsVal.vStr ("A")), (("u"), JsVal.vStr ("/news/a")),
    (("d"), JsVal.vNum 1000000000000000)]

/-- A kept entry whose URL path has an empty trailing segment, so its `id`
falls back to `Date.now().toString()`. -/
def entrySlashU : JsVal :=
  jobj [(("t"), JsVal.vStr ("A")), (("u"), JsVal.vStr ("/"))]

/-- A raw entry of the SvelteKit revision carrying an image path. -/
def itemImg : JsVal :=
  jobj [(("title"), JsVal.vStr ("T")), (("url"), JsVal.vStr ("/news/x")),
    (("image"), JsVal.vStr ("/img/p.png"))]

/-- The article `mapItemS` produces from `itemImg`. -/
def articleImg : ArticleS :=
  { id := JsVal.vStr ("x"), title := JsVal.vStr ("T")
    summary := JsVal.vStr (""), url := ("https://stockanalysis.com/news/x")
    source := srcName, publishedAt := JsVal.vNull
    imageUrl := some ("https://stockanalysis.com/img/p.png") }

/-- An entry shape with all four fields, the date field arbitrary. -/
def mkEntryD (t u s : String) (dv : JsVal) : JsVal :=
  jobj [(("t"), JsVal.vStr t), (("u"), JsVal.vStr u), (("s"), JsVal.vStr s),
    (("d"), dv)]

/-- An entry shape with the date field absent. -/
def mkEntryNoD (t u s : String) : JsVal :=
  jobj [(("t"), JsVal.vStr t), (("u"), JsVal.vStr u), (("s"), JsVal.vStr s)]

/-- The article `mapItem` produces from such an entry. -/
def mkArticleOf (now : Nat) (t u s : String) (pa : Option String) : Article :=
  { id := if lastSeg u = ("") then toString now else lastSeg u
    title := jsTrim t, summary := jsTrim s, url := origin ++ u
    publishedAt := pa, source := srcName }

/-! ## Helper lemmas -/

theorem jsArr_toList_ofList (l : List JsVal) : (jsArrOfList l).toList = l := by
  induction l with
  | nil => rfl
  | cons x xs ih => simp [jsArrOfList, JsArr.toList, ih]

theorem pathLookup_mkPayload (raws : List JsVal) :
    pathLookup (mkPayload raws) = JsVal.vArr (jsArrOfList raws) := rfl

theorem transform_mkPayload (now : Nat) (raws : List JsVal) :
    transformNewsData now (mkPayload raws) =
      match mapArticles now (raws.filter keepItem) with
      | Except.ok arts =>
          TransformResult.success arts.length (isoOfMillis now) arts
      | Except.error m => TransformResult.exnFail m := by
  unfold transformNewsData
  rw [pathLookup_mkPayload]
  exact congrArg
    (fun l =>
      match mapArticles now (l.filter keepItem) with
      | Except.ok arts =>
          TransformResult.success arts.length (isoOfMillis now) arts
      | Except.error m => TransformResult.exnFail m)
    (jsArr_toList_ofList raws)

theorem origin_append_ne (u : String) : origin ++ u ≠ ("") := by
  simp [origin, String.ext_iff]

theorem mapArticles_ok_facts {now : Nat} {l : List JsVal} {arts : List Article}
    (h : mapArticles now l = Except.ok arts) :
    arts.length = l.length ∧
      ∀ a ∈ arts, ∃ x, x ∈ l ∧ mapItem now x = Except.ok a := by
  induction l generalizing arts with
  | nil =>
      unfold mapArticles at h
      injection h with h
      subst h
      simp
  | cons x xs ih =>
      unfold mapArticles at h
      cases hx : mapItem now x with
      | error e => rw [hx] at h; cases h
      | ok a0 =>
          rw [hx] at h
          cases hrest : mapArticles now xs with
          | error e => rw [hrest] at h; cases h
          | ok rest =>
              rw [hrest] at h
              injection h with h
              subst h
              obtain ⟨hlen, hmem⟩ := ih hrest
              refine ⟨by simp [hlen], ?_⟩
              intro a ha
              rcases List.mem_cons.mp ha with h1 | h1
              · exact ⟨x, List.mem_cons_self x xs, h1 ▸ hx⟩
              · obtain ⟨y, hy, hya⟩ := hmem a h1
                exact ⟨y, List.mem_cons_of_mem x hy, hya⟩

theorem mapItem_ok_url {now : Nat} {x : JsVal} {a : Article}
    (h : mapItem now x = Except.ok a) : ∃ u, a.url = origin ++ u := by
  unfold mapItem at h
  split at h
  case h_2 => cases h
  case h_1 u _ =>
    split at h
    case h_2 => cases h
    case h_1 t _ =>
      split at h
      case h_2 => cases h
      case h_1 s _ =>
        split at h
        case h_2 => cases h
        case h_1 pa _ =>
          injection h with h
          subst h
          exact ⟨u, rfl⟩

theorem mapItem_now_irrel {x : JsVal} (t1 t2 : Nat) (hseg : segOK x = true) :
    mapItem t1 x = mapItem t2 x := by
  unfold mapItem
  cases hu : jsGetField x ("u") with
  | vStr u =>
      simp only [segOK, hu, bne_iff_ne] at hseg
      simp only [if_neg hseg]
  | vNull => rfl
  | vUndefined => rfl
  | vBool b => rfl
  | vNum n => rfl
  | vArr xs => rfl
  | vObj fs => rfl

theorem mapArticles_now_irrel (t1 t2 : Nat) {l : List JsVal}
    (hseg : ∀ x ∈ l, segOK x = true) :
    mapArticles t1 l = mapArticles t2 l := by
  induction l with
  | nil => rfl
  | cons x xs ih =>
      unfold mapArticles
      rw [mapItem_now_irrel t1 t2 (hseg x (List.mem_cons_self x xs)),
        ih (fun y hy => hseg y (List.mem_cons_of_mem x hy))]

theorem handler_get (dev : Bool) (o : FetchOutcome) (now : Nat) :
    handler ("GET") dev o now = handleGet dev o now := rfl

theorem transform_hasError_of_nonarray {now : Nat} {data : JsVal}
    (hna : jsIsArray (pathLookup data) = false) :
    hasError (transformNewsData now data) = true := by
  unfold transformNewsData
  cases hp : pathLookup data with
  | vArr xs => rw [hp] at hna; cases hna
  | vNull => rfl
  | vUndefined => rfl
  | vBool b => rfl
  | vNum n => rfl
  | vStr s => rfl
  | vObj fs => rfl

theorem mapArticlesS_ok_mem {rand : String} {l : List JsVal}
    {arts : List ArticleS} (h : mapArticlesS rand l = Except.ok arts) :
    ∀ a ∈ arts, ∃ x, x ∈ l ∧ mapItemS rand x = Except.ok a := by
  induction l generalizing arts with
  | nil =>
      unfold mapArticlesS at h
      injection h with h
      subst h
      simp
  | cons x xs ih =>
      unfold mapArticlesS at h
      cases hx : mapItemS rand x with
      | error e => rw [hx] at h; cases h
      | ok a0 =>
          rw [hx] at h
          cases hrest : mapArticlesS rand xs with
          | error e => rw [hrest] at h; cases h
          | ok rest =>
              rw [hrest] at h
              injection h with h
              subst h
              intro a ha
              rcases List.mem_cons.mp ha with h1 | h1
              · exact ⟨x, List.mem_cons_self x xs, h1 ▸ hx⟩
              · obtain ⟨y, hy, hya⟩ := ih hrest a h1
                exact ⟨y, List.mem_cons_of_mem x hy, hya⟩

theorem mapItemS_ok_imageUrl {rand : String} {x : JsVal} {a : ArticleS}
    (h : mapItemS rand x = Except.ok a) :
    a.imageUrl = if truthy (jsGetField x ("image")) then
        some (origin ++ jsToString (jsGetField x ("image")))
      else none := by
  unfold mapItemS at h
  split at h
  · cases h
  · injection h with h
    subst h
    rfl

theorem stripTime_match (r : Except String (List Article)) (s1 s2 : String) :
    stripTime (match r with
      | Except.ok arts => TransformResult.success arts.length s1 arts
      | Except.error m => TransformResult.exnFail m) =
      stripTime (match r with
      | Except.ok arts => TransformResult.success arts.length s2 arts
      | Except.error m => TransformResult.exnFail m) := by
  cases r <;> rfl

theorem handleGet_http (dev : Bool) (status : Nat) (ct : String)
    (parsed : Option JsVal) (now : Nat) :
    handleGet dev (FetchOutcome.httpResponse status ct parsed) now =
      if !respOk status || !strContains ct ("application/json") then
        ⟨502, ResponseBody.errHint ("Source blocked request")
          ("Check Vercel logs for Cloudflare/challenge details")⟩
      else
        match parsed with
        | none =>
            ⟨500, ResponseBody.errDebug ("Service unavailable")
              (if dev then some msgBadJson else none)⟩
        | some rawData =>
            if hasError (transformNewsData now rawData) then
              if nullish rawData then
                ⟨500, ResponseBody.errDebug ("Service unavailable")
                  (if dev then some msgKeysNull else none)⟩
              else
                ⟨500, ResponseBody.errHint ("Data structure changed")
                  ("Check transformation logic")⟩
            else ⟨200, ResponseBody.payload (transformNewsData now rawData)⟩
      := rfl

/-! ## Claim theorems -/

/-- C1, counterexample: the raw entry whose title field is the whitespace
string is truthy, so it passes the filter, and the normalizer emits an
Article whose title is empty after trimming — the claim says such an entry
is dropped entirely and every emitted title is non-empty. -/
theorem claim_c1_cex :
    titlesOf (transformNewsData 0 (mkPayload [entryBlankTitle])) = [("")] := by
  rfl

/-- C1, amended: for every payload whose article node is an array and every
successful normalization, each emitted Article has a non-empty `url`, and
the number of emitted articles equals the number of raw entries passing the
truthiness filter (failing entries are dropped entirely, never emitted as
partial records); but the filter tests truthiness of the raw title field
before trimming, so a whitespace-only title yields an emitted Article whose
title is empty after trimming. -/
theorem claim_c1 (now : Nat) (data : JsVal) (xs : JsArr) (cnt : Nat)
    (lu : String) (arts : List Article)
    (hpath : pathLookup data = JsVal.vArr xs)
    (hres : transformNewsData now data = TransformResult.success cnt lu arts) :
    (∀ a ∈ arts, a.url ≠ ("")) ∧
      arts.length = (xs.toList.filter keepItem).length ∧ cnt = arts.length := by
  unfold transformNewsData at hres
  rw [hpath] at hres
  have hres2 : (match mapArticles now (xs.toList.filter keepItem) with
      | Except.ok l => TransformResult.success l.length (isoOfMillis now) l
      | Except.error m => TransformResult.exnFail m) =
      TransformResult.success cnt lu arts := hres
  clear hres
  cases hm : mapArticles now (xs.toList.filter keepItem) with
  | error m =>
      rw [hm] at hres2
      have h3 : TransformResult.exnFail m =
          TransformResult.success cnt lu arts := hres2
      cases h3
  | ok l =>
      rw [hm] at hres2
      have h3 : TransformResult.success l.length (isoOfMillis now) l =
          TransformResult.success cnt lu arts := hres2
      injection h3 with h4 h5 h6
      subst h6
      obtain ⟨hlen, hmem⟩ := mapArticles_ok_facts hm
      refine ⟨?_, hlen, h4.symm⟩
      intro a ha
      obtain ⟨x, _, hxa⟩ := hmem a ha
      obtain ⟨u, hu⟩ := mapItem_ok_url hxa
      rw [hu]
      exact origin_append_ne u

/-- C1, witness: the worked-example payload instantiates the amended claim. -/
theorem claim_c1_wit : article7.url ≠ ("") :=
  (claim_c1 0 payload7 (jsArrOfList [entry7]) 1 (isoOfMillis 0) [article7]
    rfl rfl).1 article7 (by simp)

/-- C2, counterexample: one entry whose URL field is a truthy number makes
`item.u.split` throw inside `.map`, the surrounding try/catch turns this
into `{ error: err.message }`, and the whole batch is lost — including the
preceding well-formed entry.  The claim says a single mistyped entry never
aborts the batch. -/
theorem claim_c2_cex :
    transformNewsData 0 (mkPayload [entryGoodA, entryBadNumU]) =
      TransformResult.exnFail msgSplitU := by
  rfl

/-- C2, amended: an entry rejected by the truthiness filter (missing or
falsy title or URL field) is dropped before mapping, so adding or removing
it never changes the result for the other entries; but an entry with truthy
mistyped fields reaches `.map`, throws there, and aborts the whole batch
(the exception is converted to a structural failure). -/
theorem claim_c2 (now : Nat) (pre post : List JsVal) (bad : JsVal)
    (hbad : keepItem bad = false) :
    transformNewsData now (mkPayload (pre ++ bad :: post)) =
      transformNewsData now (mkPayload (pre ++ post)) := by
  rw [transform_mkPayload, transform_mkPayload]
  have hf : (pre ++ bad :: post).filter keepItem =
      (pre ++ post).filter keepItem := by
    simp [List.filter_append, List.filter_cons, hbad]
  rw [hf]

/-- C2, witness: dropping an entry with no fields at all leaves the batch
result unchanged. -/
theorem claim_c2_wit :
    transformNewsData 0 (mkPayload ([entryGoodA] ++ jobj [] :: [])) =
      transformNewsData 0 (mkPayload ([entryGoodA] ++ [])) :=
  claim_c2 0 [entryGoodA] [] (jobj []) rfl

/-- C3, counterexample: a kept entry whose epoch-seconds field is the
numeric value 1e15 makes `new Date(1e18).toISOString()` throw a RangeError;
the batch-level catch converts this to `{ error: 'Invalid time value' }`,
so the out-of-range value does not yield `publishedAt = null` — it fails
the whole batch.  The claim says the conversion never throws. -/
theorem claim_c3_cex :
    transformNewsData 0 (mkPayload [entryHugeD]) =
      TransformResult.exnFail msgInvalidTime := by
  rfl

/-- C3, amended: for a kept, string-typed raw entry — (i) a truthy in-range
numeric date field is converted to ISO-8601; (ii) a zero (falsy) date field
yields `publishedAt = null` even though the field is present; (iii) an
out-of-range numeric date field makes the mapping throw `Invalid time
value`, aborting the batch; (iv) an absent date field yields
`publishedAt = null`. -/
theorem mapItem_mkEntryD (now : Nat) (t u s : String) (dv : JsVal) :
    mapItem now (mkEntryD t u s dv) =
      match summaryField (JsVal.vStr s) with
      | Except.ok s2 =>
          match publishedField dv with
          | Except.ok pa => Except.ok (mkArticleOf now t u s2 pa)
          | Except.error e => Except.error e
      | Except.error e => Except.error e := rfl

theorem mapItem_mkEntryNoD (now : Nat) (t u s : String) :
    mapItem now (mkEntryNoD t u s) =
      match summaryField (JsVal.vStr s) with
      | Except.ok s2 => Except.ok (mkArticleOf now t u s2 none)
      | Except.error e => Except.error e := rfl

theorem summaryField_str (s : String) :
    summaryField (JsVal.vStr s) = Except.ok s := by
  by_cases hs : s = ("")
  · subst hs; rfl
  · unfold summaryField
    rw [if_pos (show truthy (JsVal.vStr s) = true by
      simp [truthy, bne_iff_ne, hs])]

theorem publishedField_num (n : Int) (hn0 : n ≠ 0) :
    publishedField (JsVal.vNum n) =
      if -maxMs ≤ n * 1000 ∧ n * 1000 ≤ maxMs then
        Except.ok (some (isoOfMillis (n * 1000)))
      else Except.error msgInvalidTime := by
  unfold publishedField
  rw [if_pos (show truthy (JsVal.vNum n) = true by
    simp [truthy, bne_iff_ne, hn0])]
  rfl

theorem claim_c3 (now : Nat) (t u s : String) (n : Int)
    (ht : t ≠ ("")) (hu : u ≠ ("")) :
    keepItem (mkEntryD t u s (JsVal.vNum n)) = true ∧
    ((n ≠ 0 ∧ -maxMs ≤ n * 1000 ∧ n * 1000 ≤ maxMs) →
      mapItem now (mkEntryD t u s (JsVal.vNum n)) =
        Except.ok (mkArticleOf now t u s (some (isoOfMillis (n * 1000))))) ∧
    (n = 0 →
      mapItem now (mkEntryD t u s (JsVal.vNum n)) =
        Except.ok (mkArticleOf now t u s none)) ∧
    ((n * 1000 < -maxMs ∨ maxMs < n * 1000) →
      mapItem now (mkEntryD t u s (JsVal.vNum n)) =
        Except.error msgInvalidTime) ∧
    mapItem now (mkEntryNoD t u s) =
      Except.ok (mkArticleOf now t u s none) := by
  refine ⟨?_, ?_, ?_, ?_, ?_⟩
  · show (true && (t != ("")) && (u != (""))) = true
    simp [bne_iff_ne, ht, hu]
  · rintro ⟨hn0, hlo, hhi⟩
    rw [mapItem_mkEntryD, summaryField_str, publishedField_num n hn0,
      if_pos ⟨hlo, hhi⟩]
  · intro hn0
    subst hn0
    rw [mapItem_mkEntryD, summaryField_str]
    rfl
  · intro hout
    have hn0 : n ≠ 0 := by
      have hmv : maxMs = 8640000000000000 := rfl
      rcases hout with h | h <;> intro he <;> rw [he] at h <;> omega
    rw [mapItem_mkEntryD, summaryField_str, publishedField_num n hn0,
      if_neg (show ¬(-maxMs ≤ n * 1000 ∧ n * 1000 ≤ maxMs) by
        rintro ⟨hlo, hhi⟩
        rcases hout with h | h <;> omega)]
  · rw [mapItem_mkEntryNoD, summaryField_str]

/-- C3, witness: the worked-example entry instantiates the in-range branch
of the amended claim. -/
theorem claim_c3_wit :
    mapItem 0 (mkEntryD ("Title") ("/news/abc-123") ("Summary")
        (JsVal.vNum 1700000000)) =
      Except.ok (mkArticleOf 0 ("Title") ("/news/abc-123") ("Summary")
        (some (isoOfMillis (1700000000 * 1000)))) :=
  (claim_c3 0 ("Title") ("/news/abc-123") ("Summary") 1700000000
    (by decide) (by decide)).2.1 ⟨by decide, by decide, by decide⟩

theorem svelteFallback_ne_success (data : JsVal) (lu : String)
    (arts : List ArticleS) :
    svelteFallback data ≠ TransformS.success lu arts := by
  intro h
  unfold svelteFallback at h
  split at h
  · cases h
  · cases h
  · split at h
    · cases h
    · cases h
    · cases h
    · cases h

/-- C4: when the 8-second budget is exceeded, the outstanding outbound call
is aborted (the `timeout` outcome is, by definition, the deadline firing,
`controller.abort()` cancelling the fetch, and the `AbortError` rejection),
and the handler answers 504 with body `{ error: "Upstream timeout" }`. -/
theorem claim_c4 (dev : Bool) (now : Nat) :
    timeoutMs = 8000 ∧
    handler ("GET") dev FetchOutcome.timeout now =
      ⟨504, ResponseBody.errOnly ("Upstream timeout")⟩ :=
  ⟨rfl, rfl⟩

/-- C5: a non-2xx status or a non-JSON content type makes the handler
answer 502 with an `error` field of value `Source blocked request`, a
`hint` field, and no `articles` field. -/
theorem claim_c5 (dev : Bool) (now status : Nat) (ct : String)
    (parsed : Option JsVal)
    (h : (respOk status && strContains ct ("application/json")) = false) :
    handler ("GET") dev (FetchOutcome.httpResponse status ct parsed) now =
      ⟨502, ResponseBody.errHint ("Source blocked request")
        ("Check Vercel logs for Cloudflare/challenge details")⟩ ∧
    bodyErrorField (ResponseBody.errHint ("Source blocked request")
        ("Check Vercel logs for Cloudflare/challenge details")) =
      some ("Source blocked request") ∧
    bodyHintField (ResponseBody.errHint ("Source blocked request")
        ("Check Vercel logs for Cloudflare/challenge details")) =
      some ("Check Vercel logs for Cloudflare/challenge details") ∧
    bodyHasArticles (ResponseBody.errHint ("Source blocked request")
        ("Check Vercel logs for Cloudflare/challenge details")) = false := by
  refine ⟨?_, rfl, rfl, rfl⟩
  rw [handler_get, handleGet_http]
  have hcond : (!respOk status || !strContains ct ("application/json"))
      = true := by
    cases hr : respOk status <;>
      cases hc : strContains ct ("application/json") <;>
      rw [hr, hc] at h <;> simp_all
  rw [if_pos hcond]

/-- C5, witness: upstream status 403 with an HTML content type is blocked. -/
theorem claim_c5_wit :
    handler ("GET") false
        (FetchOutcome.httpResponse 403 ("text/html") none) 0 =
      ⟨502, ResponseBody.errHint ("Source blocked request")
        ("Check Vercel logs for Cloudflare/challenge details")⟩ :=
  (claim_c5 false 0 403 ("text/html") none (by rfl)).1

theorem handleGet_json (dev : Bool) (status : Nat) (ct : String)
    (data : JsVal) (now : Nat)
    (hok : (respOk status && strContains ct ("application/json")) = true) :
    handleGet dev (FetchOutcome.httpResponse status ct (some data)) now =
      (if hasError (transformNewsData now data) then
        if nullish data then
          ⟨500, ResponseBody.errDebug ("Service unavailable")
            (if dev then some msgKeysNull else none)⟩
        else
          ⟨500, ResponseBody.errHint ("Data structure changed")
            ("Check transformation logic")⟩
      else ⟨200, ResponseBody.payload (transformNewsData now data)⟩) := by
  rw [handleGet_http]
  obtain ⟨h1, h2⟩ : respOk status = true ∧
      strContains ct ("application/json") = true := by simpa using hok
  have hcond : (!respOk status || !strContains ct ("application/json"))
      = false := by rw [h1, h2]; rfl
  rw [if_neg (show ¬((!respOk status ||
      !strContains ct ("application/json")) = true) by rw [hcond]; simp)]

/-- C6, counterexample: for the parsed payload `null` the normalizer does
signal a structural failure, but the handler's diagnostic
`Object.keys(rawData)` throws on `null`, so the client gets 500
`Service unavailable` instead of the claimed `Data structure changed`. -/
theorem claim_c6_cex :
    transformNewsData 0 JsVal.vNull = TransformResult.structFail false none ∧
    handler ("GET") false (FetchOutcome.httpResponse 200 ("application/json")
        (some JsVal.vNull)) 0 =
      ⟨500, ResponseBody.errDebug ("Service unavailable") none⟩ ∧
    (handler ("GET") false (FetchOutcome.httpResponse 200 ("application/json")
        (some JsVal.vNull)) 0).body ≠
      ResponseBody.errHint ("Data structure changed")
        ("Check transformation logic") := by
  refine ⟨rfl, rfl, by decide⟩

/-- C6, amended: for every 2xx JSON response whose parsed payload is not
`null` (nor `undefined`) and whose value at `nodes[1].data` is not an array
— including the empty object — the normalizer signals a structural failure
and the handler answers 500 with `{ error: "Data structure changed",
hint: "Check transformation logic" }`; the payload `null` instead yields
500 `Service unavailable` because `Object.keys(null)` throws. -/
theorem claim_c6 (dev : Bool) (now status : Nat) (ct : String) (data : JsVal)
    (hnn : nullish data = false)
    (hna : jsIsArray (pathLookup data) = false)
    (hok : (respOk status && strContains ct ("application/json")) = true) :
    handler ("GET") dev (FetchOutcome.httpResponse status ct (some data)) now =
      ⟨500, ResponseBody.errHint ("Data structure changed")
        ("Check transformation logic")⟩ := by
  rw [handler_get, handleGet_json dev status ct data now hok,
    if_pos (transform_hasError_of_nonarray hna),
    if_neg (show ¬nullish data = true by rw [hnn]; simp)]

/-- C6, witness: the empty-object payload `{}` from a 200 JSON response. -/
theorem claim_c6_wit :
    handler ("GET") false (FetchOutcome.httpResponse 200 ("application/json")
        (some (jobj []))) 0 =
      ⟨500, ResponseBody.errHint ("Data structure changed")
        ("Check transformation logic")⟩ :=
  claim_c6 false 0 200 ("application/json") (jobj []) rfl rfl rfl

/-- C7: the spec's worked example — the raw entry
`{ t: "Title", u: "/news/abc-123", d: 1700000000, s: "Summary" }` is
normalized to exactly the expected Article, with
`publishedAt = "2023-11-14T22:13:20.000Z"`. -/
theorem claim_c7 :
    transformNewsData 0 payload7 =
      TransformResult.success 1 (isoOfMillis 0) [article7] := rfl

/-- C8, counterexample: a kept entry whose URL path is `/` has an empty
trailing segment, so its `id` falls back to `Date.now().toString()`; two
handler invocations over the same payload at different times then emit
different `articles` — not only `lastUpdated` differs. -/
theorem claim_c8_cex :
    respArticles (handler ("GET") false (FetchOutcome.httpResponse 200
        ("application/json") (some (mkPayload [entrySlashU]))) 0) ≠
      respArticles (handler ("GET") false (FetchOutcome.httpResponse 200
        ("application/json") (some (mkPayload [entrySlashU]))) 1000) := by
  decide

/-- C8, amended: when every kept raw entry has a string URL path with a
non-empty trailing segment, the normalizer's output at two different
invocation times differs at most in the `lastUpdated` timestamp — the
emitted articles (and count) are identical. -/
theorem claim_c8 (t1 t2 : Nat) (data : JsVal)
    (hseg : ∀ x ∈ (rawItems data).filter keepItem, segOK x = true) :
    stripTime (transformNewsData t1 data) =
      stripTime (transformNewsData t2 data) := by
  unfold transformNewsData
  cases hp : pathLookup data with
  | vArr xs =>
      have hraw : rawItems data = xs.toList := by unfold rawItems; rw [hp]
      rw [hraw] at hseg
      have key := stripTime_match (mapArticles t2 (xs.toList.filter keepItem))
        (isoOfMillis t1) (isoOfMillis t2)
      nth_rewrite 1 [← mapArticles_now_irrel t1 t2 hseg] at key
      exact key
  | vNull => rfl
  | vUndefined => rfl
  | vBool b => rfl
  | vNum n => rfl
  | vStr s => rfl
  | vObj fs => rfl

/-- C8, witness: a payload whose kept entry has URL path `/news/a`. -/
theorem claim_c8_wit :
    stripTime (transformNewsData 0 (mkPayload [entryGoodA])) =
      stripTime (transformNewsData 7 (mkPayload [entryGoodA])) :=
  claim_c8 0 7 (mkPayload [entryGoodA]) (by decide)

/-- C9, counterexample: on a successful response of the main revision the
emitted Article objects carry exactly the fields id, title, summary, url,
publishedAt and source — there is no `imageUrl` field at all, while the
claim requires one on every emitted Article. -/
theorem claim_c9_cex :
    respArticles (handler ("GET") false (FetchOutcome.httpResponse 200
        ("application/json") (some payload7)) 0) = some [article7] ∧
    ¬ (("imageUrl") ∈ (articleToJson article7).map Prod.fst) := by
  refine ⟨rfl, by decide⟩

/-- C9, amended: articles emitted by the main revision's normalizer have
exactly the fields id, title, summary, url, publishedAt, source (no
`imageUrl`); articles emitted by the SvelteKit revision additionally carry
`imageUrl`, which is the origin-prefixed absolute URL when the raw entry
has a truthy image path and `null` when it does not. -/
theorem claim_c9 :
    (∀ (now : Nat) (data : JsVal) (cnt : Nat) (lu : String)
        (arts : List Article),
      transformNewsData now data = TransformResult.success cnt lu arts →
      ∀ a ∈ arts, (articleToJson a).map Prod.fst =
        [("id"), ("title"), ("summary"), ("url"), ("publishedAt"),
          ("source")]) ∧
    (∀ (now : Nat) (rand : String) (data : JsVal) (lu : String)
        (arts : List ArticleS),
      transformSvelteKitData now rand data = TransformS.success lu arts →
      ∀ a ∈ arts, (articleSToJson a).map Prod.fst =
          [("id"), ("title"), ("summary"), ("url"), ("source"),
            ("publishedAt"), ("imageUrl")] ∧
        (a.imageUrl = none ∨ ∃ p, a.imageUrl = some (origin ++ p))) ∧
    (∀ (rand : String) (item : JsVal) (a : ArticleS),
      mapItemS rand item = Except.ok a →
      a.imageUrl = if truthy (jsGetField item ("image")) then
          some (origin ++ jsToString (jsGetField item ("image")))
        else none) := by
  refine ⟨?_, ?_, ?_⟩
  · intro now data cnt lu arts h a ha
    rfl
  · intro now rand data lu arts h a ha
    refine ⟨rfl, ?_⟩
    unfold transformSvelteKitData at h
    revert h
    cases hp : pathLookup data with
    | vArr xs =>
        intro h
        have h2 : (match mapArticlesS rand xs.toList with
            | Except.ok arts2 =>
                TransformS.success (isoOfMillis now) (arts2.filter keepArtS)
            | Except.error e => TransformS.parseFail data) =
            TransformS.success lu arts := h
        cases hm : mapArticlesS rand xs.toList with
        | error e =>
            rw [hm] at h2
            have h3 : TransformS.parseFail data =
                TransformS.success lu arts := h2
            cases h3
        | ok l =>
            rw [hm] at h2
            have h3 : TransformS.success (isoOfMillis now)
                (l.filter keepArtS) = TransformS.success lu arts := h2
            injection h3 with h4 h5
            subst h5
            obtain ⟨x, hx, hxa⟩ :=
              mapArticlesS_ok_mem hm a (List.mem_of_mem_filter ha)
            rw [mapItemS_ok_imageUrl hxa]
            by_cases himg : truthy (jsGetField x ("image")) = true
            · rw [if_pos himg]
              exact Or.inr ⟨_, rfl⟩
            · rw [if_neg himg]
              exact Or.inl rfl
    | vNull => intro h; exact absurd h (svelteFallback_ne_success data lu arts)
    | vUndefined =>
        intro h; exact absurd h (svelteFallback_ne_success data lu arts)
    | vBool b =>
        intro h; exact absurd h (svelteFallback_ne_success data lu arts)
    | vNum n =>
        intro h; exact absurd h (svelteFallback_ne_success data lu arts)
    | vStr s =>
        intro h; exact absurd h (svelteFallback_ne_success data lu arts)
    | vObj fs =>
        intro h; exact absurd h (svelteFallback_ne_success data lu arts)
  · intro rand item a h
    exact mapItemS_ok_imageUrl h

/-- C9, witness: a SvelteKit-revision entry with an image path maps to an
article whose `imageUrl` is the origin-prefixed path. -/
theorem claim_c9_wit :
    articleImg.imageUrl = (if truthy (jsGetField itemImg ("image")) then
        some (origin ++ jsToString (jsGetField itemImg ("image")))
      else none) :=
  claim_c9.2.2 ("r") itemImg articleImg rfl

/-- C10: for the parsed payload `null`, the normalizer returns a
structural-failure value, but `Object.keys(rawData)` in the handler's
diagnostic logging throws a TypeError on `null`; the outer catch turns this
into 500 `{ error: "Service unavailable" }` (with the TypeError's message
as debug detail only in development mode), not the structural-failure
response. -/
theorem claim_c10 (dev : Bool) (now : Nat) :
    hasError (transformNewsData now JsVal.vNull) = true ∧
    handler ("GET") dev (FetchOutcome.httpResponse 200 ("application/json")
        (some JsVal.vNull)) now =
      ⟨500, ResponseBody.errDebug ("Service unavailable")
        (if dev then some msgKeysNull else none)⟩ ∧
    bodyErrorField (ResponseBody.errDebug ("Service unavailable")
        (if dev then some msgKeysNull else none)) ≠
      some ("Data structure changed") := by
  refine ⟨rfl, rfl, by simp [bodyErrorField]⟩
